import Mathlib

/-!
# Verification of the Monday→Azure sync engine

Shallow embedding of the reconciliation engine of `monday-to-azure`
(`gaggle_fns.py`, `email_lists.py`, `monday_fns.py`, `msgraph_fns.py`,
`function_app.py`) and proofs about its diff engine, group-definition
resolution, webhook handling, serialization and orchestration.
-/

namespace MondayToAzure

/-- From `monday_fns.py`: the roster record.  All attributes are strings
(Python dataclass `MondayUser` with seven required fields, no defaults). -/
structure MondayUser where
  name : String
  email : String
  voice_part : String
  chorus_emails : String
  social_emails : String
  section_leader : String
  section_coordinator : String
  deriving DecidableEq, Repr

/-- From `email_lists.py`: `YES = "Yes"`. -/
def YES : String := "Yes"

/-- From `email_lists.py`: `EmailListMember` — identity key `email` plus
display attribute `name`. -/
structure EmailListMember where
  email : String
  name : String
  deriving DecidableEq, Repr

/-- From `email_lists.py`: `EmailListMember.from_monday_user`. -/
def EmailListMember.from_monday_user (m : MondayUser) : EmailListMember :=
  { email := m.email, name := m.name }

/-- Lookup in a Python dict keyed by email, modelled on the member list that
was pivoted with `pivot_by_email` (`{m.email: m for m in members}`): the
*last* binding of a key wins, as in a Python dict comprehension. -/
def lookupByEmail (members : List EmailListMember) (e : String) :
    Option EmailListMember :=
  match members with
  | [] => none
  | m :: rest =>
    match lookupByEmail rest e with
    | some r => some r
    | none => if m.email = e then some m else none

/-- One assignment `d[m.email] = m` into a Python dict represented as an
association list in insertion order: overwrite in place if the key exists,
otherwise append. -/
def dictInsert : List EmailListMember → EmailListMember → List EmailListMember
  | [], m => [m]
  | x :: rest, m =>
    if x.email = m.email then m :: rest else x :: dictInsert rest m

/-- From `email_lists.py`: `pivot_by_email`, the dict comprehension
`{m.email: m for m in members}` — one record per email, later records
overwriting earlier ones, keys in first-occurrence order. -/
def pivot_by_email (members : List EmailListMember) : List EmailListMember :=
  members.foldl dictInsert []

/-- From `gaggle_fns.py` `sync_one_group`:
`members_to_add = [member for email, member in target_members.items() if email not in current_members]`. -/
def members_to_add (target current : List EmailListMember) :
    List EmailListMember :=
  target.filter (fun m => lookupByEmail current m.email = none)

/-- From `gaggle_fns.py` `sync_one_group`:
`members_to_update = [member for email, member in current_members.items()
 if email in target_members and member.name != target_members[email].name]`.
Note the comprehension ranges over `current_members`, so the records collected
are the *current* (remote-side) records. -/
def members_to_update (target current : List EmailListMember) :
    List EmailListMember :=
  current.filter (fun m =>
    match lookupByEmail target m.email with
    | some t => m.name ≠ t.name
    | none => false)

/-- From `gaggle_fns.py` `sync_one_group`:
`members_to_remove = [member for email, member in current_members.items() if email not in target_members]`. -/
def members_to_remove (target current : List EmailListMember) :
    List EmailListMember :=
  current.filter (fun m => lookupByEmail target m.email = none)

/-- Effect on the remote group state of applying one computed SyncPlan, per
the backend calls issued by `sync_one_group`: `_remove_group_member` deletes
the member with the given email, `_update_group_member` POSTs the record in
the update list to `member/{email}` (replacing the stored record for that
email), `_add_group_members` PUTs the add list (appending the new members). -/
def apply_plan (current adds updates removes : List EmailListMember) :
    List EmailListMember :=
  ((current.filter
      (fun m => lookupByEmail removes m.email = none)).map
    (fun m =>
      match lookupByEmail updates m.email with
      | some u => u
      | none => m)) ++ adds

/-- From `email_lists.py`: `USERS_IN_EVERY_EMAIL_LIST`.  A Python set,
modelled as the list of its elements in source order; every use below is
order-independent (membership tests and a set difference). -/
def USERS_IN_EVERY_EMAIL_LIST : List String :=
  ["richard.berg@cantorinewyork.com",
   "markshapiro212@gmail.com",
   "chelsea.harvey@cantorinewyork.com",
   "krdinicola@gmail.com",
   "cantoriscores@gmail.com"]

/-- From `email_lists.py` `EmailList.get_members`: the first list
comprehension — roster users passing the group's filter or belonging to
`USERS_IN_EVERY_EMAIL_LIST`, converted to `EmailListMember`. -/
def rosterMembers (roster_filter : MondayUser → Bool) (roster : List MondayUser) :
    List EmailListMember :=
  (roster.filter
    (fun u => roster_filter u || USERS_IN_EVERY_EMAIL_LIST.contains u.email)).map
    EmailListMember.from_monday_user

/-- From `email_lists.py` `EmailList.get_members`: after the comprehension,
`missing_emails = USERS_IN_EVERY_EMAIL_LIST - {m.email for m in members}`
and a placeholder `EmailListMember(email=missing_email, name="")` is appended
for each of them. -/
def get_members (roster_filter : MondayUser → Bool) (roster : List MondayUser) :
    List EmailListMember :=
  let members := rosterMembers roster_filter roster
  let missing_emails :=
    USERS_IN_EVERY_EMAIL_LIST.filter
      (fun e => !(members.any (fun m => m.email = e)))
  members ++ missing_emails.map (fun e => ⟨e, ""⟩)

/-- ASCII lower-casing of one character, as Python `str.lower` acts on the
ASCII range (all data reaching `lower()` here is ASCII). -/
def lowerChar (c : Char) : Char :=
  if 'A' ≤ c ∧ c ≤ 'Z' then Char.ofNat (c.toNat + 32) else c

/-- Python `str.lower`, on ASCII data. -/
def pyLower (s : String) : String := String.mk (s.toList.map lowerChar)

/-- Splitting a character list at every space, keeping empty fragments, as
Python `str.split(" ")` does; the result is never empty. -/
def splitChars : List Char → List (List Char)
  | [] => [[]]
  | c :: rest =>
    let r := splitChars rest
    if c = ' ' then [] :: r
    else
      match r with
      | [] => [[c]]
      | w :: ws => (c :: w) :: ws

/-- Python `s.split(" ")`: split on each single space, keeping empties
(`"".split(" ") == [""]`). -/
def pySplitSpace (s : String) : List String :=
  (splitChars s.toList).map (fun cs => String.mk cs)

/-- Whether `w` ends with the suffix `s` (list-level restatement of string
`endswith`). -/
def strEndsWith (w s : String) : Bool :=
  w.toList.reverse.take s.toList.length == s.toList.reverse

/-- Whether the word ends with any of the given suffixes. -/
def endsWithAny (w : String) (sufs : List String) : Bool :=
  sufs.any (fun s => strEndsWith w s)

/-- Modelled from the third-party `inflection` library: `pluralize`,
restricted to its regular suffix rules (the irregular-word and Latin-ending
rules are never exercised by voice-part vocabulary): words ending in
x/ch/ss/sh take "es", consonant+y becomes "ies", a word already ending in s
is unchanged, and everything else (the library's final catch-all rule,
including the empty word) takes "s". -/
def pluralize (w : String) : String :=
  if endsWithAny w ["x", "ch", "ss", "sh"] then w ++ "es"
  else if strEndsWith w "y" &&
      !(endsWithAny w ["ay", "ey", "iy", "oy", "uy", "yy"]) then
    w.dropRight 1 ++ "ies"
  else if strEndsWith w "s" then w
  else w ++ "s"

/-- From `email_lists.py` `EmailList.from_section`: the closure
`satb_filter` — `u.voice_part.lower().split(" ")[0]` pluralized, compared to
the section name, conjoined with the chorus-emails opt-in check.
`split(" ")` never returns an empty list so indexing `[0]` is `headD ""`. -/
def satb_filter (sec : String) (u : MondayUser) : Bool :=
  let voice_part_satb := (pySplitSpace (pyLower u.voice_part)).headD ""
  let voice_part_plural := pluralize voice_part_satb
  (u.chorus_emails == YES) && (sec == voice_part_plural)

/-- From the Azure Durable Functions Python SDK: `RetryOptions` carries the
first retry interval (milliseconds) and the maximum number of attempts; the
Python class exposes no backoff coefficient (it is fixed at 1). -/
structure RetryOptions where
  first_retry_interval_in_milliseconds : Nat
  max_number_of_attempts : Nat
  deriving DecidableEq, Repr

/-- From `function_app.py` `monday_sync_orchestrator`:
`retry_options = durable_func.RetryOptions(5000, 2)`. -/
def retry_options : RetryOptions := ⟨5000, 2⟩

/-- Modelled from the Azure Durable Functions runtime:
`call_activity_with_retry` runs the activity up to
`max_number_of_attempts` times, stopping at the first success.  Given which
attempts would succeed, returns the 0-based index of the first successful
attempt (equal to the number of recorded retries that preceded it), or
`none` when every attempt in the budget failed, in which case the failure
propagates and the orchestration fails. -/
def call_activity_with_retry (opts : RetryOptions)
    (attemptSucceeds : Nat → Bool) : Option Nat :=
  (List.range opts.max_number_of_attempts).find? attemptSucceeds

/-- Run states of the orchestration (Durable Functions runtime status,
restricted to the two terminal states the claims speak about). -/
inductive RunStatus
  | Succeeded
  | Failed
  deriving DecidableEq, Repr

/-- Terminal run status determined by one stage's retried execution: the
run succeeds only if some attempt within the budget succeeded. -/
def run_status_of_stage (opts : RetryOptions)
    (attemptSucceeds : Nat → Bool) : RunStatus :=
  match call_activity_with_retry opts attemptSucceeds with
  | some _ => RunStatus.Succeeded
  | none => RunStatus.Failed

/-- Modelled from the Azure Durable Functions runtime: the delay before each
retry.  The Python `RetryOptions` has backoff coefficient fixed at 1, so
every retry waits the same first-retry interval regardless of the retry
index. -/
def retry_delay_ms (opts : RetryOptions) (_k : Nat) : Nat :=
  opts.first_retry_interval_in_milliseconds

/-- The three activities of `function_app.py`, in the vocabulary of the
orchestrator. -/
inductive Activity
  | pull_from_monday
  | push_to_gaggle
  | push_to_aad
  deriving DecidableEq, Repr

/-- Trace of one orchestration run: which activities were invoked (in
order), the roster snapshot handed to each sync stage, and the terminal
status. -/
structure OrchTrace where
  calls : List Activity
  gaggle_input : Option (List MondayUser)
  aad_input : Option (List MondayUser)
  status : RunStatus
  deriving DecidableEq, Repr

/-- From `function_app.py` `monday_sync_orchestrator`: the generator body
`roster = yield call_activity_with_retry(pull_from_monday, …)` then
`gaggle_result = yield call_activity_with_retry(push_to_gaggle, …, roster)`
then `aad_result = yield call_activity_with_retry(push_to_aad, …, roster)`.
Each argument is the post-retry outcome of the corresponding stage (`pull`
is the fetched roster, or `none` if the fetch stage exhausted its retries;
`gaggle`/`aad` report whether the stage succeeded on the snapshot it was
given); a failed `yield` raises, aborting the run at that point. -/
def monday_sync_orchestrator (pull : Option (List MondayUser))
    (gaggle aad : List MondayUser → Bool) : OrchTrace :=
  match pull with
  | none => ⟨[Activity.pull_from_monday], none, none, RunStatus.Failed⟩
  | some roster =>
    if gaggle roster then
      if aad roster then
        ⟨[Activity.pull_from_monday, Activity.push_to_gaggle,
          Activity.push_to_aad], some roster, some roster,
          RunStatus.Succeeded⟩
      else
        ⟨[Activity.pull_from_monday, Activity.push_to_gaggle,
          Activity.push_to_aad], some roster, some roster, RunStatus.Failed⟩
    else
      ⟨[Activity.pull_from_monday, Activity.push_to_gaggle], some roster,
        none, RunStatus.Failed⟩

/-- A stage behavior that fails transiently on its first two attempts and
would succeed from the third attempt on. -/
def failsFirstTwoAttempts : Nat → Bool := fun n => 2 ≤ n

/-- The `event` object of a webhook body, as consumed by the sync run:
`get_monday_roster` reads only `event.get("boardId", DEFAULT_BOARD_ID)`. -/
structure WebhookEvent where
  boardId : Option Nat
  deriving DecidableEq, Repr

/-- The parsed webhook JSON body as accessed by `_parse_webhook_body`: an
optional `challenge` string and an optional `event` object. -/
structure WebhookBody where
  challenge : Option String
  event : Option WebhookEvent
  deriving DecidableEq, Repr

/-- From `monday_fns.py`: `DEFAULT_BOARD_ID = 9192120251`. -/
def DEFAULT_BOARD_ID : Nat := 9192120251

/-- From `monday_fns.py` `get_monday_roster`: the board selector placed in
the GraphQL variables — `webhook_event.get("boardId", DEFAULT_BOARD_ID)`. -/
def board_selector (event : WebhookEvent) : Nat :=
  event.boardId.getD DEFAULT_BOARD_ID

/-- From `function_app.py` `_parse_webhook_body`:
`json.loads(request_body[:1000])` then `.get("challenge", "")` and
`.get("event", {})`, with any exception degrading to `("", {})`.  The
`decode` parameter models `json.loads` (returning `none` on a parse error);
the body is truncated to its first 1000 units before decoding. -/
def parse_webhook_body (decode : String → Option WebhookBody)
    (body : String) : String × WebhookEvent :=
  match decode (body.take 1000) with
  | some j => (j.challenge.getD "", j.event.getD ⟨none⟩)
  | none => ("", ⟨none⟩)

/-- One assignment into a Python dict of strings, represented as an
association list in insertion order: overwrite in place if the key exists,
otherwise append. -/
def dictInsertKV : List (String × String) → String × String →
    List (String × String)
  | [], kv => [kv]
  | (k, v) :: rest, kv =>
    if k = kv.1 then kv :: rest else (k, v) :: dictInsertKV rest kv

/-- From `function_app.py` `_insert_challenge`: the durable check-status
response body is parsed as JSON, `response_json["challenge"] = challenge`
is set, and the object is re-serialized; modelled on the parsed object, an
association list of string fields. -/
def insert_challenge (challenge : String)
    (response_json : List (String × String)) : List (String × String) :=
  dictInsertKV response_json ("challenge", challenge)

/-- Whether a character is an ASCII letter or digit (the titles reaching
`parameterize` are ASCII). -/
def pyIsAlnum (c : Char) : Bool := c.isAlpha || c.isDigit

/-- Characters kept verbatim by `parameterize` (the regex keeps
`[a-z0-9_-]`, case-insensitively). -/
def keepChar (c : Char) : Bool := pyIsAlnum c || c = '-' || c = '_'

/-- Collapse consecutive underscores to one, as `parameterize` collapses
separator runs. -/
def squeezeUnderscores : List Char → List Char
  | [] => []
  | [c] => [c]
  | a :: b :: rest =>
    if a = '_' && b = '_' then squeezeUnderscores (b :: rest)
    else a :: squeezeUnderscores (b :: rest)

/-- Strip leading and trailing underscores, as `parameterize` strips the
separator at both ends. -/
def trimUnderscores (cs : List Char) : List Char :=
  ((cs.dropWhile (fun c => c = '_')).reverse.dropWhile
    (fun c => c = '_')).reverse

/-- Modelled from the third-party `inflection` library:
`parameterize(string, "_")` on ASCII input — every maximal run of
characters outside `[a-z0-9_-]` becomes one `"_"`, separator runs are
collapsed, separators are stripped from both ends, and the result is
lower-cased (lower-casing first is equivalent on this character set since
the unwanted-character regex is case-insensitive). -/
def parameterize (s : String) : String :=
  String.mk (trimUnderscores (squeezeUnderscores
    ((pyLower s).toList.map (fun c => if keepChar c then c else '_'))))

/-- One column of a Monday board item as read by `from_board_api`: the
column title and the cell text. -/
structure BoardColumn where
  title : String
  text : String
  deriving DecidableEq, Repr

/-- A Monday board item as read by `from_board_api`: the item name plus its
column values. -/
structure BoardItem where
  name : String
  column_values : List BoardColumn
  deriving DecidableEq, Repr

/-- The field names of the `MondayUser` dataclass
(`cls.__dataclass_fields__`), in declaration order. -/
def dataclass_fields : List String :=
  ["name", "email", "voice_part", "chorus_emails", "social_emails",
   "section_leader", "section_coordinator"]

/-- From `monday_fns.py` `MondayUser.from_board_api`: start the `values`
dict at `{"name": board_item["name"]}`, then for each column value whose
parameterized title is a dataclass field record its text (unknown titles
are skipped); finally `cls(**values)` — the dataclass has no field
defaults, so Python raises `TypeError` when any of the seven fields is
unbound, modelled as `none`. -/
def from_board_api (item : BoardItem) : Option MondayUser :=
  let values := item.column_values.foldl
    (fun acc cv =>
      let field := parameterize cv.title
      if dataclass_fields.contains field then dictInsertKV acc (field, cv.text)
      else acc)
    [("name", item.name)]
  match List.lookup "name" values, List.lookup "email" values,
      List.lookup "voice_part" values, List.lookup "chorus_emails" values,
      List.lookup "social_emails" values,
      List.lookup "section_leader" values,
      List.lookup "section_coordinator" values with
  | some nm, some em, some vp, some ce, some se, some sl, some sc =>
    some ⟨nm, em, vp, ce, se, sl, sc⟩
  | _, _, _, _, _, _, _ => none

/-- A board item whose columns omit the expected "Section Coordinator"
column (all other expected columns present). -/
def itemMissingColumn : BoardItem :=
  ⟨"Alice",
   [⟨"Email", "a@x"⟩, ⟨"Voice Part", "Bass 2"⟩, ⟨"Chorus Emails", "Yes"⟩,
    ⟨"Social Emails", "No"⟩, ⟨"Section Leader", "No"⟩]⟩

/-- A board item carrying every expected column plus an unknown "Birthday"
column. -/
def itemWithUnknownColumn : BoardItem :=
  ⟨"Alice",
   [⟨"Email", "a@x"⟩, ⟨"Voice Part", "Bass 2"⟩, ⟨"Chorus Emails", "Yes"⟩,
    ⟨"Social Emails", "No"⟩, ⟨"Section Leader", "No"⟩,
    ⟨"Section Coordinator", "No"⟩, ⟨"Birthday", "1 Jan"⟩]⟩

/-- From `monday_fns.py` `MondayUser.to_dict`: `asdict(self)` — the seven
fields keyed by their dataclass names, in declaration order. -/
def MondayUser.to_dict (u : MondayUser) : List (String × String) :=
  [("name", u.name), ("email", u.email), ("voice_part", u.voice_part),
   ("chorus_emails", u.chorus_emails), ("social_emails", u.social_emails),
   ("section_leader", u.section_leader),
   ("section_coordinator", u.section_coordinator)]

/-- The call `MondayUser(**values)` on a decoded dict: Python raises
`TypeError` (modelled as `none`) when a keyword is not a dataclass field or
when any of the seven required fields is unbound. -/
def MondayUser.from_dict (values : List (String × String)) :
    Option MondayUser :=
  if values.all (fun kv => dataclass_fields.contains kv.1) then
    match List.lookup "name" values, List.lookup "email" values,
        List.lookup "voice_part" values,
        List.lookup "chorus_emails" values,
        List.lookup "social_emails" values,
        List.lookup "section_leader" values,
        List.lookup "section_coordinator" values with
    | some nm, some em, some vp, some ce, some se, some sl, some sc =>
      some ⟨nm, em, vp, ce, se, sl, sc⟩
    | _, _, _, _, _, _, _ => none
  else none

/-- From `monday_fns.py` `MondayUser.to_json`: `json.dumps(obj.to_dict())`.
The `dumps` parameter models `json.dumps` into the serialized type `σ`
(a JSON string in the real code). -/
def MondayUser.to_json {σ : Type} (dumps : List (String × String) → σ)
    (u : MondayUser) : σ :=
  dumps u.to_dict

/-- From `monday_fns.py` `MondayUser.from_json`:
`MondayUser(**json.loads(s))`.  The `loads` parameter models `json.loads`
(returning `none` on a parse error). -/
def MondayUser.from_json {σ : Type}
    (loads : σ → Option (List (String × String))) (s : σ) :
    Option MondayUser :=
  match loads s with
  | some values => MondayUser.from_dict values
  | none => none

/-- The four patchable AAD user fields
(`USER_FIELDS_CAN_PATCH = USER_FIELDS - USER_KEYS`), modelled as a record
of optional values (the msgraph SDK represents unset properties as None). -/
structure PatchableUser where
  display_name : Option String
  mobile_phone : Option String
  department : Option String
  job_title : Option String
  deriving DecidableEq, Repr

/-- Names of the patchable fields, for field-generic statements. -/
inductive PatchField
  | display_name
  | mobile_phone
  | department
  | job_title
  deriving DecidableEq, Repr

/-- Field projection by name. -/
def PatchableUser.get (u : PatchableUser) : PatchField → Option String
  | PatchField.display_name => u.display_name
  | PatchField.mobile_phone => u.mobile_phone
  | PatchField.department => u.department
  | PatchField.job_title => u.job_title

/-- Python truthiness of an optional string (`None` and `""` are falsy). -/
def truthy : Option String → Bool
  | none => false
  | some s => s ≠ ""

/-- From `msgraph_fns.py` `_update_AAD_user_properties`: one field
qualifies for the patch body iff the roster-side value is truthy and
differs from the AAD-side value
(`if requested_field and requested_field != aad_field`). -/
def qualifies (requested aad : Option String) : Bool :=
  truthy requested && requested != aad

/-- The value `setattr(request_body, field, requested_field)` leaves in the
patch body for one field: the requested value when it qualifies, otherwise
the body field stays unset. -/
def patch_field (requested aad : Option String) : Option String :=
  if qualifies requested aad then requested else none

/-- From `msgraph_fns.py` `_update_AAD_user_properties`: the `request_body`
built by the field loop — a fresh `User()` holding only the qualifying
fields. -/
def patch_body (aad roster : PatchableUser) : PatchableUser :=
  ⟨patch_field roster.display_name aad.display_name,
   patch_field roster.mobile_phone aad.mobile_phone,
   patch_field roster.department aad.department,
   patch_field roster.job_title aad.job_title⟩

/-- From `msgraph_fns.py` `_update_AAD_user_properties`: the `need_update`
flag — set iff some field qualified. -/
def need_update (aad roster : PatchableUser) : Bool :=
  qualifies roster.display_name aad.display_name ||
  qualifies roster.mobile_phone aad.mobile_phone ||
  qualifies roster.department aad.department ||
  qualifies roster.job_title aad.job_title

/-- From `msgraph_fns.py` `_update_AAD_user_properties`: the PATCH body
issued, or `none` when no field qualifies and no PATCH request is issued at
all. -/
def update_AAD_user_properties (aad roster : PatchableUser) :
    Option PatchableUser :=
  if need_update aad roster then some (patch_body aad roster) else none

/-- One field after a PATCH: a value present in the body replaces the
stored one; a field absent from the body (unset — omitted by the SDK
serializer) is left untouched by MS Graph. -/
def overlay (bodyField aadField : Option String) : Option String :=
  match bodyField with
  | some v => some v
  | none => aadField

/-- The AAD-side state after issuing (or skipping) the computed PATCH. -/
def apply_AAD_patch (aad : PatchableUser) (body : Option PatchableUser) :
    PatchableUser :=
  match body with
  | none => aad
  | some b =>
    ⟨overlay b.display_name aad.display_name,
     overlay b.mobile_phone aad.mobile_phone,
     overlay b.department aad.department,
     overlay b.job_title aad.job_title⟩

/-- The desired side of the worked scenario: `{a@x: "A", b@x: "B"}`. -/
def exTarget : List EmailListMember :=
  [⟨"a@x", "A"⟩, ⟨"b@x", "B"⟩]

/-- The current side of the worked scenario: `{b@x: "B-old", c@x: "C"}`. -/
def exCurrent : List EmailListMember :=
  [⟨"b@x", "B-old"⟩, ⟨"c@x", "C"⟩]

/-- C1: on the spec's worked scenario, the identity sets of the diff are as
claimed (`toAdd` = {a@x}, `toRemove` = {c@x}, `toUpdate` keyed by {b@x}), but
the record placed in the update list is the *current* record `⟨b@x, "B-old"⟩`
— the stale name — not the desired record `⟨b@x, "B"⟩`: `sync_one_group`
builds `members_to_update` from `current_members.items()` and
`_update_group_member` POSTs that stale record, so the claim's "each update
record carries the desired (roster-side) attributes" fails on the code. -/
theorem sync_one_group_update_records_are_stale :
    members_to_add (pivot_by_email exTarget) (pivot_by_email exCurrent) =
      [⟨"a@x", "A"⟩] ∧
    members_to_remove (pivot_by_email exTarget) (pivot_by_email exCurrent) =
      [⟨"c@x", "C"⟩] ∧
    members_to_update (pivot_by_email exTarget) (pivot_by_email exCurrent) =
      [⟨"b@x", "B-old"⟩] ∧
    members_to_update (pivot_by_email exTarget) (pivot_by_email exCurrent) ≠
      [⟨"b@x", "B"⟩] := by
  refine ⟨by decide, by decide, by decide, by decide⟩

/-- C2: applying the SyncPlan computed by `sync_one_group` for the worked
scenario (adds, then the updates with the records actually placed in the
update list, then the removals) and re-running the diff does NOT yield empty
sets: the update list carried the stale record, so after applying the plan
the member `b@x` still has name `"B-old"` and re-diffing produces a nonempty
update set — idempotence fails on the code. -/
theorem sync_one_group_not_idempotent :
    members_to_add (pivot_by_email exTarget)
      (apply_plan (pivot_by_email exCurrent)
        (members_to_add (pivot_by_email exTarget) (pivot_by_email exCurrent))
        (members_to_update (pivot_by_email exTarget) (pivot_by_email exCurrent))
        (members_to_remove (pivot_by_email exTarget) (pivot_by_email exCurrent))) = [] ∧
    members_to_remove (pivot_by_email exTarget)
      (apply_plan (pivot_by_email exCurrent)
        (members_to_add (pivot_by_email exTarget) (pivot_by_email exCurrent))
        (members_to_update (pivot_by_email exTarget) (pivot_by_email exCurrent))
        (members_to_remove (pivot_by_email exTarget) (pivot_by_email exCurrent))) = [] ∧
    members_to_update (pivot_by_email exTarget)
      (apply_plan (pivot_by_email exCurrent)
        (members_to_add (pivot_by_email exTarget) (pivot_by_email exCurrent))
        (members_to_update (pivot_by_email exTarget) (pivot_by_email exCurrent))
        (members_to_remove (pivot_by_email exTarget) (pivot_by_email exCurrent))) =
      [⟨"b@x", "B-old"⟩] := by
  refine ⟨by decide, by decide, by decide⟩

/-- C3: for every roster (including the empty one) and every group filter,
the member set produced by `get_members` covers every AlwaysIncluded email,
and for each AlwaysIncluded email carried by no matching roster member the
output contains the synthesized placeholder member with empty display name. -/
theorem get_members_always_included (f : MondayUser → Bool)
    (roster : List MondayUser) :
    (∀ e ∈ USERS_IN_EVERY_EMAIL_LIST,
      ∃ m ∈ get_members f roster, m.email = e) ∧
    (∀ e ∈ USERS_IN_EVERY_EMAIL_LIST,
      (∀ m ∈ rosterMembers f roster, m.email ≠ e) →
        EmailListMember.mk e "" ∈ get_members f roster) := by
  constructor
  · intro e he
    by_cases h : ∃ m ∈ rosterMembers f roster, m.email = e
    · obtain ⟨m, hm, hme⟩ := h
      exact ⟨m, List.mem_append_left _ hm, hme⟩
    · refine ⟨⟨e, ""⟩, List.mem_append_right _ ?_, rfl⟩
      refine List.mem_map.mpr ⟨e, List.mem_filter.mpr ⟨he, ?_⟩, rfl⟩
      simp only [Bool.not_eq_eq_eq_not, Bool.not_true, List.any_eq_false]
      intro m hm
      simp only [decide_eq_true_eq]
      exact fun hme => h ⟨m, hm, hme⟩
  · intro e he hnone
    refine List.mem_append_right _ ?_
    refine List.mem_map.mpr ⟨e, List.mem_filter.mpr ⟨he, ?_⟩, rfl⟩
    simp only [Bool.not_eq_eq_eq_not, Bool.not_true, List.any_eq_false]
    intro m hm
    simp only [decide_eq_true_eq]
    exact hnone m hm

/-- C3 witness: instantiating at the empty roster and the always-false
filter, the resolved member set still carries `cantoriscores@gmail.com`, via
the synthesized placeholder member. -/
theorem get_members_always_included_witness :
    (∃ m ∈ get_members (fun _ => false) ([] : List MondayUser),
      m.email = "cantoriscores@gmail.com") ∧
    EmailListMember.mk "cantoriscores@gmail.com" "" ∈
      get_members (fun _ => false) ([] : List MondayUser) := by
  refine ⟨(get_members_always_included (fun _ => false) []).1
      "cantoriscores@gmail.com" (by decide),
    (get_members_always_included (fun _ => false) []).2
      "cantoriscores@gmail.com" (by decide) ?_⟩
  intro m hm
  simp [rosterMembers] at hm

/-- C4: the section predicate built by `EmailList.from_section` holds iff
the opt-in flag equals "Yes" and the section name equals the pluralized,
lower-cased first whitespace token of the voice-part attribute; concretely,
an opted-in "Bass 2" is a member of "basses", an opted-in "Soprano 1" of
"sopranos", and a non-affirmative opt-in flag excludes the person from every
section group regardless of voice-part. -/
theorem from_section_filter_spec :
    (∀ (sec : String) (u : MondayUser),
      satb_filter sec u = true ↔
        (u.chorus_emails = YES ∧
          sec = pluralize ((pySplitSpace (pyLower u.voice_part)).headD ""))) ∧
    (∀ u : MondayUser, u.voice_part = "Bass 2" → u.chorus_emails = YES →
      satb_filter "basses" u = true) ∧
    (∀ u : MondayUser, u.voice_part = "Soprano 1" → u.chorus_emails = YES →
      satb_filter "sopranos" u = true) ∧
    (∀ (sec : String) (u : MondayUser), u.chorus_emails ≠ YES →
      satb_filter sec u = false) := by
  refine ⟨?_, ?_, ?_, ?_⟩
  · intro sec u
    simp [satb_filter, and_comm]
  · intro u hvp hce
    simp only [satb_filter, hvp, hce]
    decide
  · intro u hvp hce
    simp only [satb_filter, hvp, hce]
    decide
  · intro sec u hce
    simp [satb_filter, hce]

/-- C4 witness: evaluating the section predicate at concrete people — an
opted-in Bass 2 belongs to "basses", and an opted-out Soprano 1 belongs to
no section group ("sopranos" shown). -/
theorem from_section_filter_spec_witness :
    satb_filter "basses"
      (MondayUser.mk "n" "e" "Bass 2" "Yes" "" "" "") = true ∧
    satb_filter "sopranos"
      (MondayUser.mk "n" "e" "Soprano 1" "No" "" "" "") = false :=
  ⟨from_section_filter_spec.2.1 _ rfl rfl,
   from_section_filter_spec.2.2.2 "sopranos" _ (by decide)⟩

/-- C5 counterexample: the orchestrator configures `RetryOptions(5000, 2)`,
i.e. a budget of two attempts per stage, so a stage that fails transiently
on its first two attempts is never given a third attempt: the run ends
`Failed`, not `Succeeded` as the claim states. -/
theorem third_attempt_never_happens :
    run_status_of_stage retry_options failsFirstTwoAttempts =
      RunStatus.Failed ∧
    run_status_of_stage retry_options failsFirstTwoAttempts ≠
      RunStatus.Succeeded ∧
    call_activity_with_retry retry_options failsFirstTwoAttempts = none := by
  refine ⟨by decide, by decide, by decide⟩

/-- C5 amended: with the configured `RetryOptions(5000, 2)` — two attempts
per stage, fixed (not exponential) 5000 ms delay before each retry — a
stage failing transiently on its first attempt and succeeding on the second
leaves the run `Succeeded` with exactly one recorded retry, and a stage
whose first two attempts both fail exhausts the budget and the run
transitions to `Failed`. -/
theorem retry_budget_two_attempts (attemptSucceeds : Nat → Bool) :
    (attemptSucceeds 0 = false → attemptSucceeds 1 = true →
      call_activity_with_retry retry_options attemptSucceeds = some 1 ∧
      run_status_of_stage retry_options attemptSucceeds =
        RunStatus.Succeeded) ∧
    (attemptSucceeds 0 = false → attemptSucceeds 1 = false →
      call_activity_with_retry retry_options attemptSucceeds = none ∧
      run_status_of_stage retry_options attemptSucceeds =
        RunStatus.Failed) ∧
    (∀ k, retry_delay_ms retry_options k = 5000) := by
  have hr : List.range retry_options.max_number_of_attempts = [0, 1] := rfl
  refine ⟨?_, ?_, fun _ => rfl⟩
  · intro h0 h1
    have hc : call_activity_with_retry retry_options attemptSucceeds =
        some 1 := by
      unfold call_activity_with_retry
      rw [hr]
      simp [List.find?, h0, h1]
    exact ⟨hc, by simp [run_status_of_stage, hc]⟩
  · intro h0 h1
    have hc : call_activity_with_retry retry_options attemptSucceeds =
        none := by
      unfold call_activity_with_retry
      rw [hr]
      simp [List.find?, h0, h1]
    exact ⟨hc, by simp [run_status_of_stage, hc]⟩

/-- C5 witness: a stage succeeding exactly from its second attempt yields a
`Succeeded` run with one recorded retry; a stage that never succeeds yields
a `Failed` run. -/
theorem retry_budget_two_attempts_witness :
    (call_activity_with_retry retry_options (fun n => n == 1) = some 1 ∧
      run_status_of_stage retry_options (fun n => n == 1) =
        RunStatus.Succeeded) ∧
    (call_activity_with_retry retry_options (fun _ => false) = none ∧
      run_status_of_stage retry_options (fun _ => false) =
        RunStatus.Failed) :=
  ⟨(retry_budget_two_attempts (fun n => n == 1)).1 rfl rfl,
   (retry_budget_two_attempts (fun _ => false)).2.1 rfl rfl⟩

/-- C6 counterexample: on a run where every stage succeeds, the orchestrator
invokes `push_to_gaggle` (the mailing-list sync) *before* `push_to_aad`
(the directory sync) — not the claimed order of directory sync before
mailing-list sync. -/
theorem orchestrator_runs_gaggle_before_aad :
    (monday_sync_orchestrator (some []) (fun _ => true)
        (fun _ => true)).calls =
      [Activity.pull_from_monday, Activity.push_to_gaggle,
        Activity.push_to_aad] ∧
    (monday_sync_orchestrator (some []) (fun _ => true)
        (fun _ => true)).calls ≠
      [Activity.pull_from_monday, Activity.push_to_aad,
        Activity.push_to_gaggle] := by
  refine ⟨by decide, by decide⟩

/-- C6 amended: the orchestrator executes its stages strictly sequentially
in the order fetch roster, then mailing-list (Gaggle) sync, then directory
(AAD) sync; both sync stages consume the same roster snapshot, and a
failure in the mailing-list stage is surfaced (run `Failed`) before the
directory stage is attempted. -/
theorem orchestrator_sequential_order (pull : Option (List MondayUser))
    (gaggle aad : List MondayUser → Bool) :
    ((monday_sync_orchestrator pull gaggle aad).calls =
        [Activity.pull_from_monday] ∨
      (monday_sync_orchestrator pull gaggle aad).calls =
        [Activity.pull_from_monday, Activity.push_to_gaggle] ∨
      (monday_sync_orchestrator pull gaggle aad).calls =
        [Activity.pull_from_monday, Activity.push_to_gaggle,
          Activity.push_to_aad]) ∧
    (∀ roster, pull = some roster →
      (monday_sync_orchestrator pull gaggle aad).gaggle_input =
        some roster ∧
      (gaggle roster = true →
        (monday_sync_orchestrator pull gaggle aad).aad_input =
          some roster) ∧
      (gaggle roster = false →
        Activity.push_to_aad ∉
          (monday_sync_orchestrator pull gaggle aad).calls ∧
        (monday_sync_orchestrator pull gaggle aad).status =
          RunStatus.Failed)) := by
  match pull with
  | none => exact ⟨Or.inl rfl, fun roster h => by cases h⟩
  | some roster =>
    constructor
    · by_cases hg : gaggle roster
      · by_cases ha : aad roster
        · exact Or.inr (Or.inr (by simp [monday_sync_orchestrator, hg, ha]))
        · exact Or.inr (Or.inr (by simp [monday_sync_orchestrator, hg, ha]))
      · exact Or.inr (Or.inl (by simp [monday_sync_orchestrator, hg]))
    · intro r hr
      cases hr
      by_cases hg : gaggle roster
      · refine ⟨?_, ?_, ?_⟩
        · by_cases ha : aad roster <;>
            simp [monday_sync_orchestrator, hg, ha]
        · intro _
          by_cases ha : aad roster <;>
            simp [monday_sync_orchestrator, hg, ha]
        · intro hcontra
          rw [hg] at hcontra
          cases hcontra
      · refine ⟨?_, ?_, ?_⟩
        · simp [monday_sync_orchestrator, hg]
        · intro hcontra
          rw [hcontra] at hg
          cases hg rfl
        · intro _
          simp [monday_sync_orchestrator, hg]

/-- C6 witness: on a run whose mailing-list stage fails, the directory
stage is never invoked and the run is `Failed`; on a fully successful run
both sync stages receive the fetched roster snapshot. -/
theorem orchestrator_sequential_order_witness :
    (Activity.push_to_aad ∉
        (monday_sync_orchestrator (some []) (fun _ => false)
          (fun _ => true)).calls ∧
      (monday_sync_orchestrator (some []) (fun _ => false)
          (fun _ => true)).status = RunStatus.Failed) ∧
    ((monday_sync_orchestrator (some []) (fun _ => true)
        (fun _ => true)).gaggle_input = some [] ∧
      (monday_sync_orchestrator (some []) (fun _ => true)
        (fun _ => true)).aad_input = some []) :=
  ⟨((orchestrator_sequential_order (some []) (fun _ => false)
      (fun _ => true)).2 [] rfl).2.2 rfl,
   ⟨((orchestrator_sequential_order (some []) (fun _ => true)
      (fun _ => true)).2 [] rfl).1,
    ((orchestrator_sequential_order (some []) (fun _ => true)
      (fun _ => true)).2 [] rfl).2.1 rfl⟩⟩

/-- Looking up the challenge key after `_insert_challenge` always finds the
challenge just inserted, whatever the response object held before. -/
theorem lookup_insert_challenge (resp : List (String × String))
    (c : String) :
    List.lookup "challenge" (insert_challenge c resp) = some c := by
  unfold insert_challenge
  induction resp with
  | nil => simp [dictInsertKV, List.lookup]
  | cons kv rest ih =>
    obtain ⟨k, v⟩ := kv
    by_cases h : k = "challenge"
    · subst h
      simp [dictInsertKV, List.lookup]
    · simp only [dictInsertKV, h, if_false, List.lookup]
      have hk : ("challenge" == k) = false :=
        beq_eq_false_iff_ne.mpr (Ne.symm h)
      rw [hk]
      exact ih

/-- C7: the webhook handler parses only a bounded (1000-unit) first slice
of the request body; a decode failure degrades to an empty challenge and an
empty event instead of raising; a body carrying a challenge and a board id
has the challenge echoed verbatim into the JSON response and the carried
board selector used for the sync run; and an event without a board id falls
back to the default board selector. -/
theorem webhook_challenge_and_board_selector
    (decode : String → Option WebhookBody) :
    (∀ b₁ b₂ : String, b₁.take 1000 = b₂.take 1000 →
      parse_webhook_body decode b₁ = parse_webhook_body decode b₂) ∧
    (∀ body : String, decode (body.take 1000) = none →
      parse_webhook_body decode body = ("", ⟨none⟩)) ∧
    (∀ (body c : String) (bid : Nat),
      decode (body.take 1000) = some ⟨some c, some ⟨some bid⟩⟩ →
      parse_webhook_body decode body = (c, ⟨some bid⟩) ∧
      board_selector (parse_webhook_body decode body).2 = bid) ∧
    (∀ (resp : List (String × String)) (c : String),
      List.lookup "challenge" (insert_challenge c resp) = some c) ∧
    board_selector ⟨none⟩ = DEFAULT_BOARD_ID := by
  refine ⟨?_, ?_, ?_, fun resp c => lookup_insert_challenge resp c, rfl⟩
  · intro b₁ b₂ h
    unfold parse_webhook_body
    rw [h]
  · intro body h
    unfold parse_webhook_body
    rw [h]
  · intro body c bid h
    constructor
    · unfold parse_webhook_body
      rw [h]
      rfl
    · unfold parse_webhook_body
      rw [h]
      rfl

/-- C7 witness: on the spec's concrete webhook body (decoded by a model of
`json.loads` for that body) the parsed pair is `("abc", event with board 42)`
and the response object carries `"challenge" ↦ "abc"`; an undecodable body
degrades to the empty challenge and event. -/
theorem webhook_challenge_and_board_selector_witness :
    parse_webhook_body (fun _ => some ⟨some "abc", some ⟨some 42⟩⟩)
      "\x7b\"challenge\":\"abc\",\"event\":\x7b\"boardId\":42\x7d\x7d" =
      ("abc", ⟨some 42⟩) ∧
    board_selector
      (parse_webhook_body (fun _ => some ⟨some "abc", some ⟨some 42⟩⟩)
        "\x7b\"challenge\":\"abc\",\"event\":\x7b\"boardId\":42\x7d\x7d").2 =
      42 ∧
    List.lookup "challenge"
      (insert_challenge "abc" [("statusQueryGetUri", "u")]) = some "abc" ∧
    parse_webhook_body (fun _ => none) "garbage" = ("", ⟨none⟩) :=
  ⟨((webhook_challenge_and_board_selector
      (fun _ => some ⟨some "abc", some ⟨some 42⟩⟩)).2.2.1 _ "abc" 42 rfl).1,
   ((webhook_challenge_and_board_selector
      (fun _ => some ⟨some "abc", some ⟨some 42⟩⟩)).2.2.1 _ "abc" 42 rfl).2,
   (webhook_challenge_and_board_selector
      (fun _ => some ⟨some "abc", some ⟨some 42⟩⟩)).2.2.2.1 _ "abc",
   (webhook_challenge_and_board_selector (fun _ => none)).2.1 "garbage" rfl⟩

/-- C8: `from_board_api` does ignore unknown column titles, but it is not
total on items missing an expected column: the `MondayUser` dataclass has
seven required fields and no defaults, so `cls(**values)` raises
`TypeError` (modelled as `none`) when a column such as "Section
Coordinator" is absent — the repo's own `main()` smoke tests construct
`MondayUser` without `section_coordinator` and would hit the same error. -/
theorem from_board_api_missing_column_is_error :
    from_board_api itemMissingColumn = none ∧
    from_board_api itemWithUnknownColumn =
      some ⟨"Alice", "a@x", "Bass 2", "Yes", "No", "No", "No"⟩ := by
  refine ⟨by decide, by decide⟩

/-- C9: the JSON round trip `from_json (to_json u)` restores any
`MondayUser` exactly, for every serialization layer `dumps`/`loads` (the
third-party `json` module in the real code) that decodes what it encoded:
the dict produced by `to_dict` binds exactly the dataclass's seven fields,
so `MondayUser(**values)` reconstructs the original value. -/
theorem to_json_from_json_roundtrip {σ : Type}
    (dumps : List (String × String) → σ)
    (loads : σ → Option (List (String × String)))
    (hinv : ∀ d, loads (dumps d) = some d) (u : MondayUser) :
    MondayUser.from_json loads (MondayUser.to_json dumps u) = some u := by
  unfold MondayUser.from_json MondayUser.to_json
  rw [hinv]
  rfl

/-- C9 witness: the round trip at a concrete user, with the identity
encoder standing for the serialization layer. -/
theorem to_json_from_json_roundtrip_witness :
    MondayUser.from_json (fun d => some d)
      (MondayUser.to_json (fun d => d)
        (MondayUser.mk "Alice" "a@x" "Bass 2" "Yes" "No" "No" "No")) =
      some (MondayUser.mk "Alice" "a@x" "Bass 2" "Yes" "No" "No" "No") :=
  to_json_from_json_roundtrip (fun d => d) (fun d => some d)
    (fun _ => rfl) (MondayUser.mk "Alice" "a@x" "Bass 2" "Yes" "No" "No" "No")

/-- Per-field behavior of the patch loop: a field left set in the body must
have qualified (truthy roster value differing from AAD) and carries the
roster value; an untruthy roster value never reaches the body. -/
theorem patch_field_spec (r a : Option String) :
    (patch_field r a ≠ none →
      truthy r = true ∧ r ≠ a ∧ patch_field r a = r) ∧
    (truthy r = false → patch_field r a = none) := by
  unfold patch_field qualifies
  by_cases ht : truthy r
  · by_cases hne : r = a
    · subst hne
      simp [ht]
    · have hb : (r != a) = true := bne_iff_ne.mpr hne
      simp [ht, hb, hne]
  · simp [ht]

/-- C10: `_update_AAD_user_properties` never clears an existing directory
field — a field appears in the PATCH body only when the roster-side value
is truthy and differs from the AAD value (and then carries the roster
value); fields empty or absent on the roster are left unchanged in AAD
after the patch is applied; and when no field qualifies no PATCH request is
issued at all. -/
theorem update_AAD_user_properties_never_clears
    (aad roster : PatchableUser) :
    (∀ (body : PatchableUser) (f : PatchField),
      update_AAD_user_properties aad roster = some body →
      body.get f ≠ none →
      truthy (roster.get f) = true ∧ roster.get f ≠ aad.get f ∧
        body.get f = roster.get f) ∧
    (∀ f : PatchField, truthy (roster.get f) = false →
      (apply_AAD_patch aad (update_AAD_user_properties aad roster)).get f =
        aad.get f) ∧
    ((∀ f : PatchField, qualifies (roster.get f) (aad.get f) = false) →
      update_AAD_user_properties aad roster = none) := by
  refine ⟨?_, ?_, ?_⟩
  · intro body f hsome hne
    unfold update_AAD_user_properties at hsome
    by_cases hn : need_update aad roster
    · rw [if_pos hn] at hsome
      obtain rfl : patch_body aad roster = body := Option.some.inj hsome
      cases f
      · exact (patch_field_spec _ _).1 hne
      · exact (patch_field_spec _ _).1 hne
      · exact (patch_field_spec _ _).1 hne
      · exact (patch_field_spec _ _).1 hne
    · rw [if_neg hn] at hsome
      cases hsome
  · intro f hf
    unfold update_AAD_user_properties
    by_cases hn : need_update aad roster
    · rw [if_pos hn]
      have hpf := (patch_field_spec (roster.get f) (aad.get f)).2 hf
      cases f <;>
        simp_all [apply_AAD_patch, patch_body, PatchableUser.get, overlay]
    · rw [if_neg hn]
      rfl
  · intro hq
    have h1 := hq PatchField.display_name
    have h2 := hq PatchField.mobile_phone
    have h3 := hq PatchField.department
    have h4 := hq PatchField.job_title
    simp only [PatchableUser.get] at h1 h2 h3 h4
    unfold update_AAD_user_properties need_update
    rw [h1, h2, h3, h4]
    rfl

/-- AAD-side state of the C10 witness: a user with a name, phone,
department and title already set in the directory. -/
def exAad : PatchableUser :=
  ⟨some "Old Name", some "555", some "Bass 1", some "Dr"⟩

/-- Roster-side state of the C10 witness: a new display name, the same
department, and no phone or job title on the roster. -/
def exRoster : PatchableUser :=
  ⟨some "New Name", none, some "Bass 1", none⟩

/-- C10 witness: at the concrete pair, the job title absent from the roster
survives the applied patch, the display name in the body is the roster one,
and a roster with nothing new to say triggers no PATCH at all. -/
theorem update_AAD_user_properties_never_clears_witness :
    (apply_AAD_patch exAad
      (update_AAD_user_properties exAad exRoster)).get
        PatchField.job_title = some "Dr" ∧
    (truthy (exRoster.get PatchField.display_name) = true ∧
      exRoster.get PatchField.display_name ≠
        exAad.get PatchField.display_name ∧
      (patch_body exAad exRoster).get PatchField.display_name =
        exRoster.get PatchField.display_name) ∧
    update_AAD_user_properties exAad
      ⟨none, none, none, some "Dr"⟩ = none :=
  ⟨Eq.trans
    ((update_AAD_user_properties_never_clears exAad exRoster).2.1
      PatchField.job_title rfl) rfl,
   (update_AAD_user_properties_never_clears exAad exRoster).1
      (patch_body exAad exRoster) PatchField.display_name rfl
      (fun h => Option.noConfusion h),
   (update_AAD_user_properties_never_clears exAad
      ⟨none, none, none, some "Dr"⟩).2.2
      (fun f => by cases f <;> rfl)⟩

end MondayToAzure
